import Mathlib

/-!
Verification development for the AstronomyHelp MCP server (src/main.py).

The server exposes three tools over an MCP transport: `validate` (returns a
fixed identifier), `get_apod_with_image` (NASA APOD record with an optional
embedded base64 image), and `get_planet` (solar-system body facts).  A bearer
auth provider grants access on an exact token match.

We shallowly embed the Python code: parsed JSON payloads become an inductive
`Json` type (objects as key-distinct association lists), HTTP interactions
become explicit status/body/oracle parameters, Python exceptions become an
explicit `PyError` type threaded through `Except`, and the `@mcp.tool`
dispatcher wrappers become functions mapping inner results to the final
`McpError` payload.  All definitions are executable.
-/

namespace AstronomyHelp

/-- Parsed JSON values as produced by `response.json()` in the source.
Numbers are modelled as rationals (the code only passes them through,
never computes with them); objects are association lists assumed
key-distinct, matching a parsed Python dict. -/
inductive Json where
  | null : Json
  | bool : Bool → Json
  | num : ℚ → Json
  | str : String → Json
  | arr : List Json → Json
  | obj : List (String × Json) → Json

/-- Python `data.get(k)`: look a key up in a parsed JSON object,
`none` when the key is absent. -/
def jget (d : List (String × Json)) (k : String) : Option Json :=
  (d.find? (fun p => p.1 == k)).map (fun p => p.2)

/-- Python truthiness of a JSON value (`if image_url:` in the source):
`None`, `False`, `0`, `""`, `[]` and `{}` are falsy. -/
def Json.truthy : Json → Bool
  | .null => false
  | .bool b => b
  | .num q => !(q == 0)
  | .str s => !(s == "")
  | .arr xs => !xs.isEmpty
  | .obj fs => !fs.isEmpty

/-- Python `v == "lit"` for a JSON value `v`: true exactly when `v` is that
string. -/
def Json.isStrEq : Json → String → Bool
  | .str t, s => t == s
  | _, _ => false

/-- Python `data.get(k) == s` (absence compares unequal to any string). -/
def getEqStr (d : List (String × Json)) (k : String) (s : String) : Bool :=
  match jget d k with
  | some v => v.isStrEq s
  | none => false

/-- The two MCP error codes the source uses (`INVALID_PARAMS` is the
spec's invalid-input kind, `INTERNAL_ERROR` its internal kind). -/
inductive ErrCode where
  | INVALID_PARAMS : ErrCode
  | INTERNAL_ERROR : ErrCode
deriving DecidableEq

/-- The `ErrorData(code=…, message=…)` payload carried by a raised
`McpError`. -/
structure ErrorData where
  code : ErrCode
  message : String
deriving DecidableEq

/-- Python exceptions that can propagate out of the fetch helpers:
a deliberately raised `McpError`, a `KeyError` from `moon["moon"]`, or a
`TypeError` from subscripting/iterating a non-dict/non-list value. -/
inductive PyError where
  | mcpError : ErrorData → PyError
  | keyError : String → PyError
  | typeError : String → PyError
deriving DecidableEq

/-- Python `str(e)` for the exceptions above.  `McpError.__init__` calls
`Exception.__init__(error.message)`, so `str` is the message; `str` of a
`KeyError` is the repr of the missing key (quoted). -/
def PyError.toStr : PyError → String
  | .mcpError d => d.message
  | .keyError k => "\x27" ++ k ++ "\x27"
  | .typeError m => m

/-- The `AccessToken` record built by `load_access_token` on a match. -/
structure AccessToken where
  token : String
  client_id : String
  scopes : List String
  expires_at : Option Nat
deriving DecidableEq

/-- `SimpleBearerAuthProvider.load_access_token` (src/main.py lines 45-53):
compare the presented token with the configured secret; on match return an
`AccessToken` with `client_id="puch-client"`, `scopes=["*"]`,
`expires_at=None`; otherwise return `None`.  Total: it never raises. -/
def load_access_token (self_token : String) (token : String) : Option AccessToken :=
  if token == self_token then
    some { token := token, client_id := "puch-client", scopes := ["*"], expires_at := none }
  else
    none

/-- The base64 alphabet character for a 6-bit value, as used by
`base64.b64encode`. -/
def b64digit (n : Nat) : Char :=
  "ABCDEFGHIJKLMNOPQRSTUVWXYZabcdefghijklmnopqrstuvwxyz0123456789+/".toList.getD n 'A'

/-- Encode one full 3-byte group as four base64 characters. -/
def b64quad (a b c : Nat) : List Char :=
  let n := (a % 256) * 65536 + (b % 256) * 256 + (c % 256)
  [b64digit (n / 262144), b64digit (n / 4096 % 64), b64digit (n / 64 % 64), b64digit (n % 64)]

/-- Standard base64 of a byte list, with `=` padding, as
`base64.b64encode(...).decode("utf-8")` produces. -/
def b64encodeChars : List Nat → List Char
  | [] => []
  | [a] =>
      let n := (a % 256) * 16
      [b64digit (n / 64), b64digit (n % 64), '=', '=']
  | [a, b] =>
      let n := ((a % 256) * 256 + (b % 256)) * 4
      [b64digit (n / 4096), b64digit (n / 64 % 64), b64digit (n % 64), '=']
  | a :: b :: c :: rest => b64quad a b c ++ b64encodeChars rest

/-- `base64.b64encode(content).decode("utf-8")` on raw bytes. -/
def b64encode (bytes : List Nat) : String :=
  String.mk (b64encodeChars bytes)

/-- Outcome of the secondary `client.get(image_url)` call inside
`fetch_apod_with_image`: either an HTTP response (status and raw body
bytes) or a raised network exception. -/
inductive ImgResult where
  | resp : Nat → List Nat → ImgResult
  | raise : String → ImgResult

/-- The dict returned by `fetch_apod_with_image` (src/main.py lines
96-105).  Every field except `image_base64` is a JSON value copied from
the upstream payload (absent keys become `None`/`null`); `image_base64`
is `None` or a base64 string. -/
structure ApodRecord where
  title : Json
  date : Json
  explanation : Json
  media_type : Json
  url : Json
  hdurl : Json
  thumbnail : Json
  image_base64 : Option String

/-- The secondary-image block of `fetch_apod_with_image` (src/main.py
lines 84-94): starting from `image_base64 = None`, if
`data.get("media_type") == "image"` and `data.get("url")` is truthy, issue
one GET for the image bytes; on a 200 response set `image_base64` to their
base64 encoding, on any other status leave it `None`, and on a raised
exception swallow it (the source logs it) and leave it `None`.  The second
component logs the URLs of the secondary requests issued, for reasoning
about how many outbound calls the block makes. -/
def apodSecondary (data : List (String × Json)) (imgFetch : Json → ImgResult) :
    Option String × List Json :=
  if getEqStr data "media_type" "image" then
    let image_url := (jget data "url").getD .null
    if image_url.truthy then
      match imgFetch image_url with
      | .resp s content => (if s = 200 then some (b64encode content) else none, [image_url])
      | .raise _ => (none, [image_url])
    else (none, [])
  else (none, [])

/-- The dict literal returned by `fetch_apod_with_image` (src/main.py
lines 96-105), given the parsed payload and the computed `image_base64`. -/
def apodBaseRecord (data : List (String × Json)) (img : Option String) : ApodRecord :=
  { title := (jget data "title").getD (.str "Untitled")
  , date := (jget data "date").getD .null
  , explanation := (jget data "explanation").getD .null
  , media_type := (jget data "media_type").getD .null
  , url := (jget data "url").getD .null
  , hdurl := (jget data "hdurl").getD .null
  , thumbnail := (jget data "thumbnail_url").getD .null
  , image_base64 := img }

/-- `fetch_apod_with_image` (src/main.py lines 68-105).  The primary HTTP
exchange is modelled by its result: `status` and the parsed JSON body
`data`; the secondary image fetch by the oracle `imgFetch`.  On any status
other than 200 it raises `McpError(INVALID_PARAMS, "Failed to fetch APOD
data")`; otherwise it returns the record together with the log of
secondary requests issued. -/
def fetch_apod_with_image (status : Nat) (data : List (String × Json))
    (imgFetch : Json → ImgResult) : Except PyError (ApodRecord × List Json) :=
  if status ≠ 200 then
    .error (.mcpError ⟨.INVALID_PARAMS, "Failed to fetch APOD data"⟩)
  else
    .ok (apodBaseRecord data (apodSecondary data imgFetch).1, (apodSecondary data imgFetch).2)

/-- The `get_apod_with_image` tool (src/main.py lines 129-140): call
`fetch_apod_with_image` and re-raise any exception as
`McpError(INTERNAL_ERROR, "APOD fetch error: " + str(e))`. -/
def get_apod_with_image (status : Nat) (data : List (String × Json))
    (imgFetch : Json → ImgResult) : Except ErrorData (ApodRecord × List Json) :=
  match fetch_apod_with_image status data imgFetch with
  | .ok r => .ok r
  | .error e => .error ⟨.INTERNAL_ERROR, "APOD fetch error: " ++ e.toStr⟩

/-- The message of the 404 `McpError` in `fetch_planet_info`
(src/main.py line 116). -/
def planetNotFoundMessage : String :=
  "Planet not found. Try: mercury, venus, earth, mars, jupiter, saturn, uranus, neptune"

/-- The dict returned by `fetch_planet_info` (src/main.py lines 120-126). -/
structure PlanetRecord where
  name : Json
  is_planet : Json
  gravity : Json
  density : Json
  moons : List Json

/-- One step of the comprehension `[moon["moon"] for moon in ...]`
(src/main.py line 125): subscripting an element that is a dict returns
the value under `"moon"` or raises `KeyError("moon")`; subscripting a
non-dict element raises a `TypeError` (whose exact Python message depends
on the element's type; no claim depends on that text). -/
def extractMoon : Json → Except PyError Json
  | .obj fs =>
      match jget fs "moon" with
      | some v => .ok v
      | none => .error (.keyError "moon")
  | _ => .error (.typeError "element is not subscriptable by a string key")

/-- `fetch_planet_info` (src/main.py lines 108-126), modelled on the HTTP
result: on status 404 raise `McpError(INVALID_PARAMS, planetNotFoundMessage)`;
otherwise project the parsed body into the result dict, with `isPlanet`
defaulting to `False`, the moon list built by `extractMoon` over
`data.get("moons", [])`, and iterating a non-array `moons` value raising a
`TypeError` (in Python a string or dict value would iterate element-wise
first, but every such path also raises a `TypeError` at the subscript; no
claim exercises those shapes). -/
def fetch_planet_info (status : Nat) (data : List (String × Json)) :
    Except PyError PlanetRecord :=
  if status = 404 then
    .error (.mcpError ⟨.INVALID_PARAMS, planetNotFoundMessage⟩)
  else
    match (jget data "moons").getD (.arr []) with
    | .arr xs =>
        match xs.mapM extractMoon with
        | .ok moons =>
            .ok { name := (jget data "englishName").getD .null
                , is_planet := (jget data "isPlanet").getD (.bool false)
                , gravity := (jget data "gravity").getD .null
                , density := (jget data "density").getD .null
                , moons := moons }
        | .error e => .error e
    | _ => .error (.typeError "moons value is not iterable as a list of dicts")

/-- The `get_planet` tool (src/main.py lines 143-154): call
`fetch_planet_info` and re-raise any exception as
`McpError(INTERNAL_ERROR, "Planet fetch error: " + str(e))`. -/
def get_planet (status : Nat) (data : List (String × Json)) :
    Except ErrorData PlanetRecord :=
  match fetch_planet_info status data with
  | .ok r => .ok r
  | .error e => .error ⟨.INTERNAL_ERROR, "Planet fetch error: " ++ e.toStr⟩

/-- Modelled from the spec: the repository's link-only daily-image variant
(the alternate deployment of §6 exposing `get_daily_image`) is not among
the source files under src/; only the embedded-binary variant is.  Per
§4.2(a), the link-only variant derives a single best display reference:
the primary URL when media kind is "image", the thumbnail URL when media
kind is "video", and null otherwise. -/
def linkOnlyDisplayRef (data : List (String × Json)) : Json :=
  if getEqStr data "media_type" "image" then (jget data "url").getD .null
  else if getEqStr data "media_type" "video" then (jget data "thumbnail_url").getD .null
  else .null

/-- Modelled from the spec: the link-only variant's separate "page"
reference (§4.2(a)) prefers the high-definition URL and falls back to the
primary URL. -/
def linkOnlyPageRef (data : List (String × Json)) : Json :=
  match jget data "hdurl" with
  | some v => v
  | none => (jget data "url").getD .null

/-- Drop everything up to and including the first `": "` of a character
list (the lead-in of an error message before its enumeration). -/
def afterColonSpace : List Char → List Char
  | [] => []
  | ':' :: ' ' :: rest => rest
  | _ :: rest => afterColonSpace rest

/-- Split a character list on the separator `", "`. -/
def splitCommaSpace : List Char → List String
  | [] => [""]
  | ',' :: ' ' :: rest => "" :: splitCommaSpace rest
  | c :: rest =>
      match splitCommaSpace rest with
      | s :: ss => (String.mk [c] ++ s) :: ss
      | [] => [String.mk [c]]

/-- The example-name list a message of the form `"... Try: a, b, c"`
enumerates: the part after the colon, split on comma-space. -/
def enumeratedNames (msg : String) : List String :=
  splitCommaSpace (afterColonSpace msg.toList)

/-- The upstream Mars payload of the spec's §8 example. -/
def marsData : List (String × Json) :=
  [ ("englishName", .str "Mars")
  , ("isPlanet", .bool true)
  , ("gravity", .num 3.7)
  , ("density", .num 3.93)
  , ("moons", .arr [.obj [("moon", .str "Phobos")], .obj [("moon", .str "Deimos")]]) ]

/-- A payload whose moons array has an element without a `"moon"` key. -/
def badMoonData : List (String × Json) :=
  [ ("englishName", .str "Mars")
  , ("moons", .arr [.obj [("name", .str "Phobos")]]) ]

/-- If a key's value equals one string, comparing it against a different
string yields false. -/
theorem getEqStr_ne (d : List (String × Json)) (k a b : String)
    (hab : a ≠ b) (h : getEqStr d k a = true) : getEqStr d k b = false := by
  unfold getEqStr at h ⊢
  cases hj : jget d k with
  | none => rw [hj] at h
  | some v =>
      rw [hj] at h
      cases v <;> simp [Json.isStrEq] at h ⊢
      subst h
      exact hab

end AstronomyHelp

namespace AstronomyHelp

/-- C2: `load_access_token` produces a grant iff the presented token equals
the configured secret; the grant carries the fixed subject `"puch-client"`,
the wildcard scope set `["*"]` and no expiry; any other token yields `none`.
The operation is a total function, so it never fails. -/
theorem c2_token_match_iff_grant (secret t : String) :
    (t = secret →
      load_access_token secret t =
        some { token := t, client_id := "puch-client", scopes := ["*"], expires_at := none }) ∧
    (t ≠ secret → load_access_token secret t = none) := by
  constructor <;> intro h <;> simp [load_access_token, h]

/-- Witness for C2 at a concrete secret and a concrete mismatched token. -/
theorem c2_token_match_iff_grant_witness :
    load_access_token "s3cret" "s3cret" =
      some { token := "s3cret", client_id := "puch-client", scopes := ["*"], expires_at := none } ∧
    load_access_token "s3cret" "nope" = none :=
  ⟨(c2_token_match_iff_grant "s3cret" "s3cret").1 rfl,
   (c2_token_match_iff_grant "s3cret" "nope").2 (by decide)⟩

/-- C6: on every HTTP status other than 200 from the daily-image provider,
`fetch_apod_with_image` fails with `INVALID_PARAMS` (the invalid-input
kind) and the exact message "Failed to fetch APOD data"; no record is
produced. -/
theorem c6_apod_non_success_fails (status : Nat) (data : List (String × Json))
    (imgFetch : Json → ImgResult) (h : status ≠ 200) :
    fetch_apod_with_image status data imgFetch =
      .error (.mcpError ⟨.INVALID_PARAMS, "Failed to fetch APOD data"⟩) := by
  simp [fetch_apod_with_image, h]

/-- Witness for C6 at statuses 404 and 500. -/
theorem c6_apod_non_success_fails_witness :
    fetch_apod_with_image 404 [] (fun _ => .raise "net down") =
      .error (.mcpError ⟨.INVALID_PARAMS, "Failed to fetch APOD data"⟩) ∧
    fetch_apod_with_image 500 [] (fun _ => .raise "net down") =
      .error (.mcpError ⟨.INVALID_PARAMS, "Failed to fetch APOD data"⟩) :=
  ⟨c6_apod_non_success_fails 404 [] _ (by decide),
   c6_apod_non_success_fails 500 [] _ (by decide)⟩

/-- C1: every failure raised inside the fetch helpers — including the
deliberately raised invalid-input `McpError`s — surfaces from the tool
boundary as an `INTERNAL_ERROR` (kind=internal) whose message is the
tool-specific prefix ("Planet fetch error: " / "APOD fetch error: ")
followed by `str` of the underlying exception. -/
theorem c1_boundary_wraps_every_failure :
    (∀ (status : Nat) (data : List (String × Json)) (e : PyError),
        fetch_planet_info status data = .error e →
        get_planet status data =
          .error ⟨.INTERNAL_ERROR, "Planet fetch error: " ++ e.toStr⟩) ∧
    (∀ (status : Nat) (data : List (String × Json)) (imgFetch : Json → ImgResult) (e : PyError),
        fetch_apod_with_image status data imgFetch = .error e →
        get_apod_with_image status data imgFetch =
          .error ⟨.INTERNAL_ERROR, "APOD fetch error: " ++ e.toStr⟩) := by
  constructor
  · intro status data e h
    simp [get_planet, h]
  · intro status data imgFetch e h
    simp [get_apod_with_image, h]

/-- Witness for C1: the invalid-input 404 planet error and the
invalid-input APOD status error each surface wrapped as internal with the
fetch-error prefix. -/
theorem c1_boundary_wraps_every_failure_witness :
    get_planet 404 [] =
      .error ⟨.INTERNAL_ERROR, "Planet fetch error: " ++ planetNotFoundMessage⟩ ∧
    get_apod_with_image 500 [] (fun _ => .raise "net down") =
      .error ⟨.INTERNAL_ERROR, "APOD fetch error: " ++ "Failed to fetch APOD data"⟩ :=
  ⟨c1_boundary_wraps_every_failure.1 404 []
      (.mcpError ⟨.INVALID_PARAMS, planetNotFoundMessage⟩) rfl,
   c1_boundary_wraps_every_failure.2 500 [] (fun _ => .raise "net down")
      (.mcpError ⟨.INVALID_PARAMS, "Failed to fetch APOD data"⟩) rfl⟩

/-- C4 counterexample: the 404 message of `fetch_planet_info` enumerates
eight example planet names, not seven as §4.3's wording has it. -/
theorem c4_seven_names_counterexample :
    fetch_planet_info 404 [] =
      .error (.mcpError ⟨.INVALID_PARAMS, planetNotFoundMessage⟩) ∧
    enumeratedNames planetNotFoundMessage =
      ["mercury", "venus", "earth", "mars", "jupiter", "saturn", "uranus", "neptune"] ∧
    (enumeratedNames planetNotFoundMessage).length ≠ 7 :=
  ⟨rfl, by decide, by decide⟩

/-- C4 (amended): on HTTP 404 the planet fetch fails with `INVALID_PARAMS`
(kind=invalid-input) and a message enumerating the eight example planet
names mercury, venus, earth, mars, jupiter, saturn, uranus, neptune. -/
theorem c4_planet_404_eight_names (data : List (String × Json)) :
    fetch_planet_info 404 data =
      .error (.mcpError ⟨.INVALID_PARAMS, planetNotFoundMessage⟩) ∧
    enumeratedNames planetNotFoundMessage =
      ["mercury", "venus", "earth", "mars", "jupiter", "saturn", "uranus", "neptune"] ∧
    (enumeratedNames planetNotFoundMessage).length = 8 :=
  ⟨rfl, by decide, by decide⟩

/-- C5: on a successful planet response the projection maps `englishName`
to `name` (absent becomes null/None), `isPlanet` to `is_planet` defaulting
to false when absent, passes `gravity` and `density` through unchanged, and
builds `moons` from the `"moon"` field of each element of the upstream
array, the empty list when the array is absent. -/
theorem c5_planet_projection (data : List (String × Json)) (xs moons : List Json)
    (hm : (jget data "moons").getD (.arr []) = .arr xs)
    (hmoons : xs.mapM extractMoon = .ok moons) :
    fetch_planet_info 200 data = .ok
      { name := (jget data "englishName").getD .null
      , is_planet := (jget data "isPlanet").getD (.bool false)
      , gravity := (jget data "gravity").getD .null
      , density := (jget data "density").getD .null
      , moons := moons } ∧
    (jget data "isPlanet" = none → (jget data "isPlanet").getD (.bool false) = .bool false) ∧
    (∀ v, jget data "isPlanet" = some v → (jget data "isPlanet").getD (.bool false) = v) ∧
    (jget data "moons" = none → moons = []) := by
  have hmoons2 : List.mapM.loop extractMoon xs [] = Except.ok moons := hmoons
  refine ⟨?_, ?_, ?_, ?_⟩
  · simp [fetch_planet_info, hm, hmoons2]
  · intro h; rw [h]; rfl
  · intro v h; rw [h]; rfl
  · intro h
    rw [h] at hm
    have hx : Json.arr ([] : List Json) = Json.arr xs := hm
    injection hx with hx2
    subst hx2
    have h0 : (([] : List Json).mapM extractMoon : Except PyError (List Json)) =
        Except.ok [] := rfl
    rw [h0] at hmoons
    injection hmoons with h4
    exact h4.symm

/-- Witness for C5: the spec's §8 Mars payload projects to the stated
record. -/
theorem c5_planet_projection_witness :
    fetch_planet_info 200 marsData = .ok
      { name := .str "Mars", is_planet := .bool true, gravity := .num 3.7
      , density := .num 3.93, moons := [.str "Phobos", .str "Deimos"] } :=
  (c5_planet_projection marsData
    [.obj [("moon", .str "Phobos")], .obj [("moon", .str "Deimos")]]
    [.str "Phobos", .str "Deimos"] rfl rfl).1

/-- C10: when any element of the upstream moons array lacks the `"moon"`
key, the comprehension raises `KeyError("moon")`, so `fetch_planet_info`
fails as a whole and `get_planet` surfaces one internal error prefixed
"Planet fetch error: "; no (partial) record is ever returned. -/
theorem c10_missing_moon_key_fails_call (data : List (String × Json)) (xs : List Json)
    (hm : (jget data "moons").getD (.arr []) = .arr xs)
    (he : xs.mapM extractMoon = .error (.keyError "moon")) :
    fetch_planet_info 200 data = .error (.keyError "moon") ∧
    get_planet 200 data =
      .error ⟨.INTERNAL_ERROR, "Planet fetch error: \x27moon\x27"⟩ ∧
    (∀ r, get_planet 200 data ≠ .ok r) ∧
    (∀ fs, jget fs "moon" = none → extractMoon (.obj fs) = .error (.keyError "moon")) := by
  have he2 : List.mapM.loop extractMoon xs [] = Except.error (PyError.keyError "moon") := he
  have h1 : fetch_planet_info 200 data = .error (.keyError "moon") := by
    simp [fetch_planet_info, hm, he2]
  refine ⟨h1, ?_, ?_, ?_⟩
  · unfold get_planet; rw [h1]; rfl
  · intro r hr
    unfold get_planet at hr
    rw [h1] at hr
    exact Except.noConfusion hr
  · intro fs hfs
    simp [extractMoon, hfs]

/-- Witness for C10: a moons array whose only element carries a `"name"`
key instead of `"moon"` makes the whole `get_planet` call fail internal. -/
theorem c10_missing_moon_key_fails_call_witness :
    get_planet 200 badMoonData =
      .error ⟨.INTERNAL_ERROR, "Planet fetch error: \x27moon\x27"⟩ ∧
    extractMoon (.obj [("name", .str "Phobos")]) = .error (.keyError "moon") :=
  ⟨(c10_missing_moon_key_fails_call badMoonData
      [.obj [("name", .str "Phobos")]] rfl rfl).2.1,
   (c10_missing_moon_key_fails_call badMoonData
      [.obj [("name", .str "Phobos")]] rfl rfl).2.2.2 [("name", .str "Phobos")] rfl⟩

/-- C3: in the embedded-binary variant, with media kind "image" and a
truthy primary URL, exactly one secondary GET for that URL is issued; on a
200 response the record's `image_base64` is the base64 encoding of the
returned bytes, on any other status or a raised network error it is `None`
and the record is still returned successfully — the secondary failure
never surfaces as an error.  (The record returned is `apodBaseRecord`,
whose `image_base64` field is exactly the computed value.) -/
theorem c3_secondary_image_fetch (data : List (String × Json)) (imgFetch : Json → ImgResult)
    (hmt : getEqStr data "media_type" "image" = true)
    (hurl : ((jget data "url").getD .null).truthy = true) :
    (∀ content, imgFetch ((jget data "url").getD .null) = .resp 200 content →
      fetch_apod_with_image 200 data imgFetch =
        .ok (apodBaseRecord data (some (b64encode content)), [(jget data "url").getD .null])) ∧
    (∀ s content, imgFetch ((jget data "url").getD .null) = .resp s content → s ≠ 200 →
      fetch_apod_with_image 200 data imgFetch =
        .ok (apodBaseRecord data none, [(jget data "url").getD .null])) ∧
    (∀ msg, imgFetch ((jget data "url").getD .null) = .raise msg →
      fetch_apod_with_image 200 data imgFetch =
        .ok (apodBaseRecord data none, [(jget data "url").getD .null])) ∧
    (∀ img, (apodBaseRecord data img).image_base64 = img) := by
  refine ⟨?_, ?_, ?_, fun img => rfl⟩
  · intro content hres
    simp [fetch_apod_with_image, apodSecondary, hmt, hurl, hres]
  · intro s content hres hs
    simp [fetch_apod_with_image, apodSecondary, hmt, hurl, hres, hs]
  · intro msg hres
    simp [fetch_apod_with_image, apodSecondary, hmt, hurl, hres]

/-- Witness for C3 at a concrete image payload: bytes `[77, 97, 110]`
encode to `"TWFu"`; a raised secondary error still yields a successful
record with `image_base64 = none`. -/
theorem c3_secondary_image_fetch_witness :
    fetch_apod_with_image 200 [("media_type", .str "image"), ("url", .str "u")]
        (fun _ => .resp 200 [77, 97, 110]) =
      .ok (apodBaseRecord [("media_type", .str "image"), ("url", .str "u")]
            (some "TWFu"), [.str "u"]) ∧
    fetch_apod_with_image 200 [("media_type", .str "image"), ("url", .str "u")]
        (fun _ => .raise "net down") =
      .ok (apodBaseRecord [("media_type", .str "image"), ("url", .str "u")]
            none, [.str "u"]) ∧
    (apodBaseRecord [("media_type", .str "image"), ("url", .str "u")]
        (some "TWFu")).image_base64 = some "TWFu" :=
  ⟨(c3_secondary_image_fetch [("media_type", .str "image"), ("url", .str "u")]
      (fun _ => .resp 200 [77, 97, 110]) rfl rfl).1 [77, 97, 110] rfl,
   (c3_secondary_image_fetch [("media_type", .str "image"), ("url", .str "u")]
      (fun _ => .raise "net down") rfl rfl).2.2.1 "net down" rfl,
   rfl⟩

/-- C8: when the upstream payload has no `title` key the returned record's
title is the string "Untitled"; when a `title` value is present it is
passed through unchanged. -/
theorem c8_title_defaults_untitled (data : List (String × Json))
    (imgFetch : Json → ImgResult) :
    (jget data "title" = none →
      ∃ r log, fetch_apod_with_image 200 data imgFetch = .ok (r, log) ∧
        r.title = .str "Untitled") ∧
    (∀ v, jget data "title" = some v →
      ∃ r log, fetch_apod_with_image 200 data imgFetch = .ok (r, log) ∧
        r.title = v) := by
  have hfetch : fetch_apod_with_image 200 data imgFetch =
      .ok (apodBaseRecord data (apodSecondary data imgFetch).1,
           (apodSecondary data imgFetch).2) := by
    simp [fetch_apod_with_image]
  constructor
  · intro h
    exact ⟨_, _, hfetch, by simp [apodBaseRecord, h]⟩
  · intro v h
    exact ⟨_, _, hfetch, by simp [apodBaseRecord, h]⟩

/-- Witness for C8: a payload without `title` yields "Untitled"; one with
a title passes it through. -/
theorem c8_title_defaults_untitled_witness :
    (∃ r log, fetch_apod_with_image 200 [("media_type", .str "video")]
        (fun _ => .raise "x") = .ok (r, log) ∧ r.title = .str "Untitled") ∧
    (∃ r log, fetch_apod_with_image 200 [("title", .str "Eagle Nebula")]
        (fun _ => .raise "x") = .ok (r, log) ∧ r.title = .str "Eagle Nebula") :=
  ⟨(c8_title_defaults_untitled [("media_type", .str "video")] (fun _ => .raise "x")).1 rfl,
   (c8_title_defaults_untitled [("title", .str "Eagle Nebula")] (fun _ => .raise "x")).2
      (.str "Eagle Nebula") rfl⟩

/-- C9: when the payload's media type is not "image" (video, absent, or
anything else), or is "image" with no `url` key, the embedded-binary
variant issues no secondary request (empty request log) and the returned
record's `image_base64` is `None`. -/
theorem c9_no_secondary_request (data : List (String × Json))
    (imgFetch : Json → ImgResult)
    (h : getEqStr data "media_type" "image" = false ∨
         (getEqStr data "media_type" "image" = true ∧ jget data "url" = none)) :
    fetch_apod_with_image 200 data imgFetch = .ok (apodBaseRecord data none, []) ∧
    (apodBaseRecord data none).image_base64 = none := by
  have hsec : apodSecondary data imgFetch = (none, []) := by
    rcases h with h | ⟨h1, h2⟩
    · simp [apodSecondary, h]
    · simp [apodSecondary, h1, h2, Json.truthy]
  exact ⟨by simp [fetch_apod_with_image, hsec], rfl⟩

/-- Witness for C9 at a video payload, a payload without `media_type`, and
an image payload without `url`. -/
theorem c9_no_secondary_request_witness :
    fetch_apod_with_image 200 [("media_type", .str "video"), ("url", .str "u")]
        (fun _ => .resp 200 [1]) =
      .ok (apodBaseRecord [("media_type", .str "video"), ("url", .str "u")] none, []) ∧
    fetch_apod_with_image 200 [("url", .str "u")] (fun _ => .resp 200 [1]) =
      .ok (apodBaseRecord [("url", .str "u")] none, []) ∧
    fetch_apod_with_image 200 [("media_type", .str "image")] (fun _ => .resp 200 [1]) =
      .ok (apodBaseRecord [("media_type", .str "image")] none, []) :=
  ⟨(c9_no_secondary_request [("media_type", .str "video"), ("url", .str "u")]
      (fun _ => .resp 200 [1]) (Or.inl rfl)).1,
   (c9_no_secondary_request [("url", .str "u")]
      (fun _ => .resp 200 [1]) (Or.inl rfl)).1,
   (c9_no_secondary_request [("media_type", .str "image")]
      (fun _ => .resp 200 [1]) (Or.inr ⟨rfl, rfl⟩)).1⟩

/-- C7: in the link-only variant (modelled from the spec, see
`linkOnlyDisplayRef` / `linkOnlyPageRef`), the best display reference is
the primary URL for media kind "image", the thumbnail URL for "video"
(never the primary URL when they differ), and null otherwise; the "page"
reference is the high-definition URL when present, else the primary URL. -/
theorem c7_link_only_refs (data : List (String × Json)) :
    (getEqStr data "media_type" "image" = true →
        linkOnlyDisplayRef data = (jget data "url").getD .null) ∧
    (getEqStr data "media_type" "video" = true →
        linkOnlyDisplayRef data = (jget data "thumbnail_url").getD .null) ∧
    (getEqStr data "media_type" "image" = false →
     getEqStr data "media_type" "video" = false →
        linkOnlyDisplayRef data = .null) ∧
    (getEqStr data "media_type" "video" = true →
      (jget data "url").getD .null ≠ (jget data "thumbnail_url").getD .null →
        linkOnlyDisplayRef data ≠ (jget data "url").getD .null) ∧
    (∀ v, jget data "hdurl" = some v → linkOnlyPageRef data = v) ∧
    (jget data "hdurl" = none → linkOnlyPageRef data = (jget data "url").getD .null) := by
  refine ⟨?_, ?_, ?_, ?_, ?_, ?_⟩
  · intro h; simp [linkOnlyDisplayRef, h]
  · intro h
    have himg := getEqStr_ne data "media_type" "video" "image" (by decide) h
    simp [linkOnlyDisplayRef, himg, h]
  · intro h1 h2; simp [linkOnlyDisplayRef, h1, h2]
  · intro h hne
    have himg := getEqStr_ne data "media_type" "video" "image" (by decide) h
    have hd : linkOnlyDisplayRef data = (jget data "thumbnail_url").getD .null := by
      simp [linkOnlyDisplayRef, himg, h]
    rw [hd]
    exact fun hc => hne hc.symm
  · intro v h; simp [linkOnlyPageRef, h]
  · intro h; simp [linkOnlyPageRef, h]

/-- Witness for C7 at concrete payloads: a video payload (display is the
thumbnail, not the primary URL), an image payload with both `url` and
`hdurl` (page is `hdurl`), and a payload with neither media kind. -/
theorem c7_link_only_refs_witness :
    linkOnlyDisplayRef [("media_type", .str "video"), ("url", .str "u"),
        ("thumbnail_url", .str "t")] = .str "t" ∧
    linkOnlyDisplayRef [("media_type", .str "video"), ("url", .str "u"),
        ("thumbnail_url", .str "t")] ≠ .str "u" ∧
    linkOnlyDisplayRef [("media_type", .str "image"), ("url", .str "u")] = .str "u" ∧
    linkOnlyPageRef [("media_type", .str "image"), ("url", .str "u"),
        ("hdurl", .str "h")] = .str "h" ∧
    linkOnlyPageRef [("media_type", .str "image"), ("url", .str "u")] = .str "u" ∧
    linkOnlyDisplayRef [("media_type", .str "other")] = .null := by
  refine ⟨?_, ?_, ?_, ?_, ?_, ?_⟩
  · exact (c7_link_only_refs [("media_type", .str "video"), ("url", .str "u"),
        ("thumbnail_url", .str "t")]).2.1 rfl
  · exact (c7_link_only_refs [("media_type", .str "video"), ("url", .str "u"),
        ("thumbnail_url", .str "t")]).2.2.2.1 rfl
        (by show Json.str "u" ≠ Json.str "t"; simp)
  · exact (c7_link_only_refs [("media_type", .str "image"), ("url", .str "u")]).1 rfl
  · exact (c7_link_only_refs [("media_type", .str "image"), ("url", .str "u"),
        ("hdurl", .str "h")]).2.2.2.2.1 (.str "h") rfl
  · exact (c7_link_only_refs [("media_type", .str "image"),
        ("url", .str "u")]).2.2.2.2.2 rfl
  · exact (c7_link_only_refs [("media_type", .str "other")]).2.2.1 rfl rfl

end AstronomyHelp
